import Mathlib

/- Shallow embedding of the alx-backend-graphql_crm repository: the CRM data model
   (crm/models.py as used by crm/schema.py and seeder_db.py), the custom filter methods of
   crm/filters.py, the mutations of crm/schema.py, the cron configuration of crm/settings.py,
   and the order-reminder job crm/cron_jobs/send_order_reminders.py.
   Decimal columns are modelled as rationals, integer columns as Int, primary keys as Nat. -/

/-- A persisted Customer row, with the fields the sources use: id, name, email, optional phone. -/
structure Customer where
  id : Nat
  name : String
  email : String
  phone : Option String
deriving DecidableEq, Repr

/-- A persisted Product row: price is a decimal (modelled as a rational), stock an integer. -/
structure Product where
  id : Nat
  name : String
  price : Rat
  stock : Int
deriving DecidableEq, Repr

/-- A persisted Order row; orderDate none stands for the model default (creation time). -/
structure Order where
  id : Nat
  customerId : Nat
  totalAmount : Rat
  orderDate : Option Nat
deriving DecidableEq, Repr

/-- A persisted OrderItem row; price is the snapshot column written at order-creation time. -/
structure OrderItem where
  id : Nat
  orderId : Nat
  productId : Nat
  quantity : Nat
  price : Rat
deriving DecidableEq, Repr

/-- The database state: one list per table, plus the Order-Product many-to-many rows. -/
structure DB where
  customers : List Customer
  products : List Product
  orders : List Order
  orderItems : List OrderItem
  orderProducts : List (Nat × Nat)
deriving DecidableEq, Repr

/-- Python truthiness of an optional string: None and the empty string are falsy. -/
def truthy : Option String → Bool
  | none => false
  | some s => !(s == "")

/-- String s starts with the string p, decided on character lists. -/
def startsWithL (s p : String) : Bool := p.toList.isPrefixOf s.toList

/-- Occurrence of pat as a contiguous substring, decided on character lists. -/
def containsSubL (pat : List Char) : List Char → Bool
  | [] => pat.isEmpty
  | c :: t => pat.isPrefixOf (c :: t) || containsSubL pat t

/-- Occurrence of pat as a contiguous substring of s. -/
def containsStr (s pat : String) : Bool := containsSubL pat.toList s.toList

/-- ASCII lowercasing of a string, character by character. -/
def lowerStr (s : String) : String := String.mk (s.toList.map Char.toLower)

/-- Case-insensitive containment, as the icontains lookup used by the filters. -/
def icontainsStr (s pat : String) : Bool := containsStr (lowerStr s) (lowerStr pat)

/-- Python str.replace with the empty replacement and a non-empty pattern: removes every
    non-overlapping occurrence of pat, scanning left to right. Fuelled by the input length;
    each step consumes at least one character, so the fuel never runs out. -/
def removeAllAux (pat : List Char) : Nat → List Char → List Char
  | 0, cs => cs
  | _ + 1, [] => []
  | fuel + 1, c :: cs =>
    if !pat.isEmpty && pat.isPrefixOf (c :: cs) then
      removeAllAux pat fuel ((c :: cs).drop pat.length)
    else
      c :: removeAllAux pat fuel cs

/-- value.replace(pat, two quotation marks) from crm/filters.py, as a string operation. -/
def removeAll (s pat : String) : String :=
  String.mk (removeAllAux pat.toList s.toList.length s.toList)

/-- Drop the first n characters of a string. -/
def dropStr (s : String) (n : Nat) : String := String.mk (s.toList.drop n)

/-- The branch of the phone pattern for a plus sign followed by one to fifteen digits. -/
def phonePlusForm : List Char → Bool
  | '+' :: rest => rest.all Char.isDigit && decide (1 ≤ rest.length) && decide (rest.length ≤ 15)
  | _ => false

/-- The branch of the phone pattern for the dashed form: three digits, a dash, three digits,
    a dash, four digits. -/
def phoneDashForm (cs : List Char) : Bool :=
  decide (cs.length = 12) &&
  (cs.take 3).all Char.isDigit &&
  (cs.get? 3 == some '-') &&
  ((cs.drop 4).take 3).all Char.isDigit &&
  (cs.get? 7 == some '-') &&
  ((cs.drop 8).take 4).all Char.isDigit

/-- validate_phone_number from crm/schema.py: a falsy phone (None or the empty string) is
    valid; otherwise the whole string must match one of the two anchored alternatives. -/
def validate_phone_number : Option String → Bool
  | none => true
  | some p => if p == "" then true else phonePlusForm p.toList || phoneDashForm p.toList

/-- filter_low_stock from crm/filters.py (ProductFilter): with value True restrict to rows
    with stock strictly below 10, otherwise return the queryset unchanged. -/
def filter_low_stock (qs : List Product) (value : Bool) : List Product :=
  if value then qs.filter (fun p => decide (p.stock < 10)) else qs

/-- A BooleanFilter method is only invoked when a value is supplied; an absent low_stock
    filter leaves the queryset as it is. -/
def applyLowStockFilter (qs : List Product) (v : Option Bool) : List Product :=
  match v with
  | none => qs
  | some b => filter_low_stock qs b

/-- The phone__startswith lookup: rows with a NULL phone never match. -/
def phoneStartsWith (c : Customer) (p : String) : Bool :=
  match c.phone with
  | none => false
  | some s => startsWithL s p

/-- The phone__icontains lookup: rows with a NULL phone never match. -/
def phoneIContains (c : Customer) (pat : String) : Bool :=
  match c.phone with
  | none => false
  | some s => icontainsStr s pat

/-- The fallback branch of filter_phone_pattern: exact match or case-insensitive containment. -/
def phoneExactOrContains (c : Customer) (value : String) : Bool :=
  match c.phone with
  | none => false
  | some s => (s == value) || icontainsStr s value

/-- filter_phone_pattern from crm/filters.py (CustomerFilter): four branches decided in
    order. The starts_with and contains branches compute their argument with str.replace,
    which removes every occurrence of the marker, not only the leading one. -/
def filter_phone_pattern (qs : List Customer) (value : String) : List Customer :=
  if value == "+1" then qs.filter (fun c => phoneStartsWith c "+1")
  else if startsWithL value "starts_with:" then
    qs.filter (fun c => phoneStartsWith c (removeAll value "starts_with:"))
  else if startsWithL value "contains:" then
    qs.filter (fun c => phoneIContains c (removeAll value "contains:"))
  else qs.filter (fun c => phoneExactOrContains c value)

/-- The phone_pattern filter as the specification words it: the sub-mode argument of the
    explicit starts_with and contains markers is the remainder of the value after the
    marker. Stated for comparison with filter_phone_pattern. -/
def filter_phone_pattern_claim (qs : List Customer) (value : String) : List Customer :=
  if value == "+1" then qs.filter (fun c => phoneStartsWith c "+1")
  else if startsWithL value "starts_with:" then
    qs.filter (fun c => phoneStartsWith c (dropStr value 12))
  else if startsWithL value "contains:" then
    qs.filter (fun c => phoneIContains c (dropStr value 9))
  else qs.filter (fun c => phoneExactOrContains c value)

/-- get_user_friendly_error from crm/schema.py: the table of user-facing message strings. -/
def get_user_friendly_error (field value error_type : String) : String :=
  if error_type == "email_exists" then "Email \x27" ++ value ++ "\x27 already exists"
  else if error_type == "invalid_phone" then
    "Phone number \x27" ++ value ++ "\x27 must be in format: +1234567890 or 123-456-7890"
  else if error_type == "invalid_price" then "Price must be a positive number"
  else if error_type == "invalid_stock" then "Stock cannot be negative"
  else if error_type == "customer_not_found" then "Customer with ID \x27" ++ value ++ "\x27 not found"
  else if error_type == "product_not_found" then "Product with ID \x27" ++ value ++ "\x27 not found"
  else if error_type == "no_products" then "At least one product is required"
  else if error_type == "required_field" then field ++ " is required"
  else "Validation error for " ++ field

/-- validate_email_unique from crm/schema.py: no existing Customer row has this email. -/
def validate_email_unique (db : DB) (email : String) : Bool :=
  !(db.customers.any (fun c => c.email == email))

/-- The CustomerInput and BulkCustomerInput shapes: name and email required, phone optional. -/
structure CustomerInput where
  name : String
  email : String
  phone : Option String
deriving DecidableEq, Repr

/-- The CustomerResponse envelope of crm/schema.py. -/
structure CustomerResponse where
  success : Bool
  customer : Option Customer
  message : String
  errors : Option (List String)
deriving DecidableEq, Repr

/-- The BulkCustomerResponse envelope of crm/schema.py. -/
structure BulkCustomerResponse where
  success : Bool
  customers : List Customer
  errors : Option (List String)
  message : String
deriving DecidableEq, Repr

/-- A fresh primary key for the customers table. -/
def maxCustomerId (db : DB) : Nat := db.customers.foldl (fun m c => max m c.id) 0

/-- The Customer row built from an input, as saved by the mutations. -/
def mkCustomer (db : DB) (i : CustomerInput) : Customer :=
  { id := maxCustomerId db + 1, name := i.name, email := i.email, phone := i.phone }

/-- customer.save(): append the row to the customers table. -/
def addCustomer (db : DB) (c : Customer) : DB :=
  { db with customers := db.customers ++ [c] }

/-- CreateCustomer.mutate from crm/schema.py: first accumulate the phone-format error and
    the email-uniqueness error; when any was found return a failure without touching the
    database, otherwise persist the row. The model-level full_clean is modelled as
    succeeding, since crm/models.py is not among the sources. -/
def createCustomer (db : DB) (input : CustomerInput) : CustomerResponse × DB :=
  let errs :=
    (if truthy input.phone && !(validate_phone_number input.phone) then
        [get_user_friendly_error "phone" (input.phone.getD "") "invalid_phone"]
      else []) ++
    (if !(validate_email_unique db input.email) then
        [get_user_friendly_error "email" input.email "email_exists"]
      else [])
  if !errs.isEmpty then
    ({ success := false, customer := none, message := "Customer creation failed",
       errors := some errs }, db)
  else
    let c := mkCustomer db input
    ({ success := true, customer := some c, message := "Customer created successfully",
       errors := none }, addCustomer db c)

/-- The per-record pre-checks of BulkCreateCustomers.mutate, in source order: missing name,
    missing email, phone format, duplicate email. The first failing check yields the single
    error message of the record; a passing record yields none. -/
def recordError (db : DB) (i : CustomerInput) : Option String :=
  if i.name == "" then some (get_user_friendly_error "name" "" "required_field")
  else if i.email == "" then some (get_user_friendly_error "email" "" "required_field")
  else if truthy i.phone && !(validate_phone_number i.phone) then
    some (get_user_friendly_error "phone" (i.phone.getD "") "invalid_phone")
  else if !(validate_email_unique db i.email) then
    some (get_user_friendly_error "email" i.email "email_exists")
  else none

/-- The loop of BulkCreateCustomers.mutate: each record is checked against the state left by
    the earlier records of the same call; a failing record contributes a Record-prefixed
    error and is skipped, a passing record is saved at once. -/
def bulkCreateCustomersAux : DB → Nat → List CustomerInput → List Customer × List String × DB
  | db, _, [] => ([], [], db)
  | db, idx, i :: rest =>
    match recordError db i with
    | some m =>
      let r := bulkCreateCustomersAux db (idx + 1) rest
      (r.1, ("Record " ++ toString (idx + 1) ++ ": " ++ m) :: r.2.1, r.2.2)
    | none =>
      let c := mkCustomer db i
      let r := bulkCreateCustomersAux (addCustomer db c) (idx + 1) rest
      (c :: r.1, r.2.1, r.2.2)

/-- BulkCreateCustomers.mutate from crm/schema.py: process every input, then build the
    response; the surrounding transaction commits once at the end, covering all rows created
    by the call. -/
def bulkCreateCustomers (db : DB) (inputs : List CustomerInput) :
    BulkCustomerResponse × DB :=
  let r := bulkCreateCustomersAux db 0 inputs
  let created := r.1
  let errs := r.2.1
  let message :=
    if !created.isEmpty && !errs.isEmpty then
      "Successfully created " ++ toString created.length ++ " customers, " ++
        toString errs.length ++ " failed"
    else if !created.isEmpty then
      "Successfully created " ++ toString created.length ++ " customers"
    else "No customers were created"
  ({ success := !created.isEmpty, customers := created,
     errors := if errs.isEmpty then none else some errs, message := message }, r.2.2)

/-- Reference trace of the bulk loop: one entry per input in order, holding either the error
    message of its first failing check or the created customer, each judged against the
    state left by the earlier records. -/
def bulkTraceSpec : DB → List CustomerInput → List (Sum String Customer)
  | _, [] => []
  | db, i :: rest =>
    match recordError db i with
    | some m => Sum.inl m :: bulkTraceSpec db rest
    | none =>
      let c := mkCustomer db i
      Sum.inr c :: bulkTraceSpec (addCustomer db c) rest

/-- The customers created along a trace. -/
def traceCustomers (t : List (Sum String Customer)) : List Customer :=
  t.filterMap (fun o => match o with | Sum.inl _ => none | Sum.inr c => some c)

/-- The error strings along a trace, each prefixed with the 1-based position of its record
    counted from the given base. -/
def traceErrors : Nat → List (Sum String Customer) → List String
  | _, [] => []
  | base, Sum.inl m :: t =>
    ("Record " ++ toString (base + 1) ++ ": " ++ m) :: traceErrors (base + 1) t
  | base, Sum.inr _ :: t => traceErrors (base + 1) t

/-- C6: the Product list filter with low_stock=true returns exactly the products whose
    stock is strictly below 10: every stored product with stock below 10 and no other. -/
theorem low_stock_true_exact (qs : List Product) (p : Product) :
    p ∈ filter_low_stock qs true ↔ p ∈ qs ∧ p.stock < 10 := by
  simp [filter_low_stock]

/-- C9: applying the low_stock filter with value false is an identity: the result is the
    same as not applying the low_stock filter at all. -/
theorem low_stock_false_identity (qs : List Product) :
    applyLowStockFilter qs (some false) = applyLowStockFilter qs none := rfl

theorem traceCustomers_nil : traceCustomers [] = [] := rfl

theorem traceCustomers_inl (m : String) (t : List (Sum String Customer)) :
    traceCustomers (Sum.inl m :: t) = traceCustomers t := rfl

theorem traceCustomers_inr (c : Customer) (t : List (Sum String Customer)) :
    traceCustomers (Sum.inr c :: t) = c :: traceCustomers t := rfl

/-- The bulk loop computes exactly the reference trace: created customers, Record-prefixed
    errors counted from the running index, and the rows appended to the customers table. -/
theorem bulkAux_eq_trace (inputs : List CustomerInput) : ∀ (db : DB) (idx : Nat),
    bulkCreateCustomersAux db idx inputs =
      (traceCustomers (bulkTraceSpec db inputs), traceErrors idx (bulkTraceSpec db inputs),
        { db with customers := db.customers ++ traceCustomers (bulkTraceSpec db inputs) }) := by
  induction inputs with
  | nil =>
    intro db idx
    simp [bulkCreateCustomersAux, bulkTraceSpec, traceCustomers_nil, traceErrors]
  | cons i rest ih =>
    intro db idx
    cases h : recordError db i with
    | some m =>
      simp [bulkCreateCustomersAux, bulkTraceSpec, h, ih, traceCustomers_inl, traceErrors]
    | none =>
      simp [bulkCreateCustomersAux, bulkTraceSpec, h, ih, traceCustomers_inr, traceErrors,
        addCustomer]

/-- Every trace entry is either one created customer or one error string. -/
theorem trace_count (t : List (Sum String Customer)) : ∀ base,
    (traceCustomers t).length + (traceErrors base t).length = t.length := by
  induction t with
  | nil => intro base; simp [traceCustomers_nil, traceErrors]
  | cons o t ih =>
    intro base
    cases o with
    | inl m =>
      rw [traceCustomers_inl, traceErrors]
      have := ih (base + 1)
      simp only [List.length_cons]
      omega
    | inr c =>
      rw [traceCustomers_inr, traceErrors]
      have := ih (base + 1)
      simp only [List.length_cons]
      omega

/-- The trace has one entry per input. -/
theorem traceSpec_length (inputs : List CustomerInput) : ∀ db,
    (bulkTraceSpec db inputs).length = inputs.length := by
  induction inputs with
  | nil => intro db; simp [bulkTraceSpec]
  | cons i rest ih =>
    intro db
    cases h : recordError db i with
    | some m => simp [bulkTraceSpec, h, ih]
    | none => simp [bulkTraceSpec, h, ih]

/-- C3: BulkCreateCustomers with N inputs persists exactly the customers of the passing
    records and no others, reports exactly one error string per failing record, each
    prefixed with Record i where i is the 1-based position of the failing input, and the
    response has success=false exactly when no customer was created. -/
theorem bulk_create_customers_spec (db : DB) (inputs : List CustomerInput) :
    (bulkTraceSpec db inputs).length = inputs.length ∧
    (bulkCreateCustomers db inputs).1.customers.length +
        ((bulkCreateCustomers db inputs).1.errors.getD []).length = inputs.length ∧
    (bulkCreateCustomers db inputs).2.customers =
        db.customers ++ (bulkCreateCustomers db inputs).1.customers ∧
    ((bulkCreateCustomers db inputs).1.errors.getD []) =
        traceErrors 0 (bulkTraceSpec db inputs) ∧
    ((bulkCreateCustomers db inputs).1.success = false ↔
        (bulkCreateCustomers db inputs).1.customers = []) := by
  have h := bulkAux_eq_trace inputs db 0
  have hc := trace_count (bulkTraceSpec db inputs) 0
  have hl := traceSpec_length inputs db
  refine ⟨hl, ?_, ?_, ?_, ?_⟩
  · by_cases he : traceErrors 0 (bulkTraceSpec db inputs) = []
    · have he0 : (traceErrors 0 (bulkTraceSpec db inputs)).length = 0 := by rw [he]; rfl
      simp [bulkCreateCustomers, h, he]
      omega
    · simp [bulkCreateCustomers, h, he]
      omega
  · simp [bulkCreateCustomers, h]
  · by_cases he : traceErrors 0 (bulkTraceSpec db inputs) = [] <;>
      simp [bulkCreateCustomers, h, he]
  · simp [bulkCreateCustomers, h, List.isEmpty_iff]

/-- C5: CreateCustomer checks the phone format and the email uniqueness before any
    persistence and accumulates both applicable error strings: on an invalid phone plus a
    duplicate email it fails with both messages, in source order, and leaves the database
    unchanged; an absent or empty phone is valid. -/
theorem create_customer_accumulates (db : DB) (input : CustomerInput) (p : String)
    (hp : input.phone = some p) (hne : p ≠ "")
    (hbad : validate_phone_number (some p) = false)
    (hdup : validate_email_unique db input.email = false) :
    validate_phone_number none = true ∧
    validate_phone_number (some "") = true ∧
    (createCustomer db input).1.success = false ∧
    (createCustomer db input).1.errors =
      some [get_user_friendly_error "phone" p "invalid_phone",
            get_user_friendly_error "email" input.email "email_exists"] ∧
    (createCustomer db input).2 = db := by
  refine ⟨by decide, by decide, ?_, ?_, ?_⟩ <;>
    simp [createCustomer, truthy, hp, hne, hbad, hdup]

/-- C10: a failing bulk record contributes exactly one pre-validation error string, that of
    the first failing check in the fixed order missing name, missing email, invalid phone,
    duplicate email, even when later checks would fail too; CreateCustomer by contrast
    accumulates the phone and email errors for the same input. -/
theorem bulk_single_error_first_check (db : DB) (i : CustomerInput) (p : String) :
    (i.name = "" →
      (bulkCreateCustomers db [i]).1.errors =
        some ["Record 1: " ++ get_user_friendly_error "name" "" "required_field"]) ∧
    (i.name ≠ "" → i.email = "" →
      (bulkCreateCustomers db [i]).1.errors =
        some ["Record 1: " ++ get_user_friendly_error "email" "" "required_field"]) ∧
    (i.name ≠ "" → i.email ≠ "" → i.phone = some p → p ≠ "" →
        validate_phone_number (some p) = false →
      (bulkCreateCustomers db [i]).1.errors =
        some ["Record 1: " ++ get_user_friendly_error "phone" p "invalid_phone"] ∧
      (bulkCreateCustomers db [i]).1.customers = []) ∧
    (i.name ≠ "" → i.email ≠ "" → i.phone = some p → p ≠ "" →
        validate_phone_number (some p) = false →
        validate_email_unique db i.email = false →
      (createCustomer db i).1.errors =
        some [get_user_friendly_error "phone" p "invalid_phone",
              get_user_friendly_error "email" i.email "email_exists"]) := by
  have hone : ("Record " ++ toString (0 + 1 : Nat) ++ ": " : String) = "Record 1: " := by
    decide
  refine ⟨?_, ?_, ?_, ?_⟩
  · intro h
    simp [bulkCreateCustomers, bulkCreateCustomersAux, recordError, h, ← hone,
      String.append_assoc]
  · intro h1 h2
    simp [bulkCreateCustomers, bulkCreateCustomersAux, recordError, h1, h2, ← hone,
      String.append_assoc]
  · intro h1 h2 hp hne hbad
    constructor <;>
      simp [bulkCreateCustomers, bulkCreateCustomersAux, recordError, truthy, h1, h2, hp,
        hne, hbad, ← hone, String.append_assoc]
  · intro h1 h2 hp hne hbad hdup
    simp [createCustomer, truthy, hp, hne, hbad, hdup]

/-- C7 counterexample: on the value starts_with:astarts_with:b the code strips every
    occurrence of the marker (keeping ab), while the claim words say the remainder after
    the marker (astarts_with:b); the two disagree on a customer with phone ab, and the
    contains marker misbehaves the same way. -/
theorem phone_pattern_counterexample :
    (filter_phone_pattern
        [{ id := 1, name := "A", email := "a@x.com", phone := some "ab" }]
        "starts_with:astarts_with:b" ≠
      filter_phone_pattern_claim
        [{ id := 1, name := "A", email := "a@x.com", phone := some "ab" }]
        "starts_with:astarts_with:b") ∧
    (filter_phone_pattern
        [{ id := 2, name := "B", email := "b@x.com", phone := some "cd" }]
        "contains:ccontains:d" ≠
      filter_phone_pattern_claim
        [{ id := 2, name := "B", email := "b@x.com", phone := some "cd" }]
        "contains:ccontains:d") := by
  decide

/-- C7 amended: the phone_pattern filter has four sub-modes decided in order: the exact +1
    shortcut, the starts_with marker, the contains marker, and the exact-or-contains
    fallback; the two marker sub-modes use the filter value with every occurrence of the
    marker removed by str.replace, which equals the remainder only when the marker does not
    occur again in it. -/
theorem phone_pattern_modes (qs : List Customer) (c : Customer) (value : String) :
    (value = "+1" →
      (c ∈ filter_phone_pattern qs value ↔ c ∈ qs ∧ phoneStartsWith c "+1" = true)) ∧
    (value ≠ "+1" → startsWithL value "starts_with:" = true →
      (c ∈ filter_phone_pattern qs value ↔
        c ∈ qs ∧ phoneStartsWith c (removeAll value "starts_with:") = true)) ∧
    (value ≠ "+1" → startsWithL value "starts_with:" = false →
        startsWithL value "contains:" = true →
      (c ∈ filter_phone_pattern qs value ↔
        c ∈ qs ∧ phoneIContains c (removeAll value "contains:") = true)) ∧
    (value ≠ "+1" → startsWithL value "starts_with:" = false →
        startsWithL value "contains:" = false →
      (c ∈ filter_phone_pattern qs value ↔
        c ∈ qs ∧ phoneExactOrContains c value = true)) := by
  refine ⟨?_, ?_, ?_, ?_⟩
  · intro h; subst h; simp [filter_phone_pattern]
  · intro h1 h2; simp [filter_phone_pattern, beq_iff_eq, h1, h2]
  · intro h1 h2 h3; simp [filter_phone_pattern, beq_iff_eq, h1, h2, h3]
  · intro h1 h2 h3; simp [filter_phone_pattern, beq_iff_eq, h1, h2, h3]

/-- A database holding one customer, used to instantiate the CreateCustomer theorem. -/
def c5db : DB :=
  { customers := [{ id := 1, name := "A", email := "a@x.com", phone := none }],
    products := [], orders := [], orderItems := [], orderProducts := [] }

/-- An input whose phone is invalid and whose email collides with the stored customer. -/
def c5input : CustomerInput := { name := "B", email := "a@x.com", phone := some "12" }

/-- Witness for the CreateCustomer theorem at a concrete database and input. -/
theorem create_customer_accumulates_witness :
    validate_phone_number none = true ∧
    validate_phone_number (some "") = true ∧
    (createCustomer c5db c5input).1.success = false ∧
    (createCustomer c5db c5input).1.errors =
      some [get_user_friendly_error "phone" "12" "invalid_phone",
            get_user_friendly_error "email" c5input.email "email_exists"] ∧
    (createCustomer c5db c5input).2 = c5db :=
  create_customer_accumulates c5db c5input "12" rfl (by decide) (by decide) (by decide)

/-- Witness for the bulk first-failing-check theorem at a concrete database and input. -/
theorem bulk_single_error_first_check_witness :
    (bulkCreateCustomers c5db [{ name := "N", email := "a@x.com", phone := some "99" }]).1.errors =
      some ["Record 1: " ++ get_user_friendly_error "phone" "99" "invalid_phone"] ∧
    (bulkCreateCustomers c5db
        [{ name := "N", email := "a@x.com", phone := some "99" }]).1.customers = [] :=
  (bulk_single_error_first_check c5db
      { name := "N", email := "a@x.com", phone := some "99" } "99").2.2.1
    (by decide) (by decide) rfl (by decide) (by decide)

/-- A one-customer queryset used to instantiate the phone_pattern theorem. -/
def c7qs : List Customer := [{ id := 1, name := "A", email := "a@x.com", phone := some "+1555" }]

/-- Witness for the phone_pattern sub-mode theorem at the exact +1 shortcut. -/
theorem phone_pattern_modes_witness :
    ({ id := 1, name := "A", email := "a@x.com", phone := some "+1555" } ∈
        filter_phone_pattern c7qs "+1" ↔
      { id := 1, name := "A", email := "a@x.com", phone := some "+1555" } ∈ c7qs ∧
      phoneStartsWith
        { id := 1, name := "A", email := "a@x.com", phone := some "+1555" } "+1" = true) :=
  (phone_pattern_modes c7qs
      { id := 1, name := "A", email := "a@x.com", phone := some "+1555" } "+1").1 rfl

/-- The OrderInput shape of crm/schema.py: required customer id and product id list,
    optional order date. -/
structure OrderInput where
  customer_id : Nat
  product_ids : List Nat
  order_date : Option Nat
deriving DecidableEq, Repr

/-- The OrderResponse envelope of crm/schema.py. -/
structure OrderResponse where
  success : Bool
  order : Option Order
  message : String
  errors : Option (List String)
deriving DecidableEq, Repr

/-- Customer.objects.get(id=...) : the row with this primary key, when it exists. -/
def findCustomer (db : DB) (cid : Nat) : Option Customer :=
  db.customers.find? (fun c => c.id == cid)

/-- Product.objects.get(id=...) : the row with this primary key, when it exists. -/
def findProduct (db : DB) (pid : Nat) : Option Product :=
  db.products.find? (fun p => p.id == pid)

/-- The product-resolution loop of CreateOrder.mutate: resolve the ids in order and abort
    at the first id that does not resolve, reporting that id. -/
def resolveProducts (db : DB) : List Nat → Except Nat (List Product)
  | [] => Except.ok []
  | pid :: rest =>
    match findProduct db pid with
    | none => Except.error pid
    | some p =>
      match resolveProducts db rest with
      | Except.error e => Except.error e
      | Except.ok ps => Except.ok (p :: ps)

/-- A fresh primary key for the orders table. -/
def maxOrderId (db : DB) : Nat := db.orders.foldl (fun m o => max m o.id) 0

/-- A fresh primary key base for the order-items table. -/
def maxItemId (db : DB) : Nat := db.orderItems.foldl (fun m it => max m it.id) 0

/-- The OrderItem rows CreateOrder.mutate builds: one per resolved product in order,
    quantity fixed at 1, price the snapshot of the product price at call time. -/
def mkOrderItems (oid : Nat) : Nat → List Product → List OrderItem
  | _, [] => []
  | base, p :: rest =>
    { id := base + 1, orderId := oid, productId := p.id, quantity := 1, price := p.price }
      :: mkOrderItems oid (base + 1) rest

/-- The sequence of order_item.save() calls; the save numbered k raises when the fault
    oracle carries an exception message at k. -/
def saveItemsAux (fault : Nat → Option String) : DB → List OrderItem → Nat → Except String DB
  | db, [], _ => Except.ok db
  | db, it :: rest, k =>
    match fault k with
    | some m => Except.error m
    | none => saveItemsAux fault { db with orderItems := db.orderItems ++ [it] } rest (k + 1)

/-- The persistence phase of CreateOrder.mutate: order.save() is operation 0, the k-th
    order_item.save() is operation k+1, order.products.set is the last operation. An
    operation whose fault entry holds a message raises with that message as its text. -/
def runSaves (db : DB) (fault : Nat → Option String) (o : Order) (items : List OrderItem)
    (ps : List Product) : Except String DB :=
  match fault 0 with
  | some m => Except.error m
  | none =>
    match saveItemsAux fault { db with orders := db.orders ++ [o] } items 1 with
    | Except.error m => Except.error m
    | Except.ok db1 =>
      match fault (items.length + 1) with
      | some m => Except.error m
      | none =>
        Except.ok
          { db1 with orderProducts := db1.orderProducts ++ ps.map (fun p => (o.id, p.id)) }

/-- CreateOrder.mutate from crm/schema.py, run under transaction.atomic. The empty-list,
    customer-not-found and product-not-found checks return a failure envelope before any
    write. A database error raised by a save is caught and turned into a failure envelope,
    but it marks the atomic block for rollback, so the block discards every write of the
    call; only a fully successful body commits. The model-level full_clean is modelled as
    succeeding, since crm/models.py is not among the sources. -/
def createOrder (db : DB) (input : OrderInput) (fault : Nat → Option String) :
    OrderResponse × DB :=
  if input.product_ids.isEmpty then
    ({ success := false, order := none, message := "Order creation failed",
       errors := some [get_user_friendly_error "products" "" "no_products"] }, db)
  else
    match findCustomer db input.customer_id with
    | none =>
      ({ success := false, order := none, message := "Order creation failed",
         errors := some [get_user_friendly_error "customer" (toString input.customer_id)
            "customer_not_found"] }, db)
    | some c =>
      match resolveProducts db input.product_ids with
      | Except.error pid =>
        ({ success := false, order := none, message := "Order creation failed",
           errors := some [get_user_friendly_error "product" (toString pid)
              "product_not_found"] }, db)
      | Except.ok ps =>
        let o : Order :=
          { id := maxOrderId db + 1, customerId := c.id,
            totalAmount := ps.foldl (fun acc p => acc + p.price) 0,
            orderDate := input.order_date }
        let items := mkOrderItems o.id (maxItemId db) ps
        match runSaves db fault o items ps with
        | Except.error m =>
          ({ success := false, order := none, message := "Failed to create order",
             errors := some [m] }, db)
        | Except.ok db2 =>
          ({ success := true, order := some o, message := "Order created successfully",
             errors := none }, db2)

/-- An in-place edit of a product price after the fact; OrderItem rows carry their own
    price column, so such an edit never touches them. -/
def updateProductPrice (db : DB) (pid : Nat) (np : Rat) : DB :=
  { db with products :=
      db.products.map (fun p => if p.id == pid then { p with price := np } else p) }

/-- The UpdateLowStockProducts response envelope. Modelled from the spec: the mutation and
    the crm.cron.update_low_stock job body are referenced by CRONJOBS in crm/settings.py
    but their code is not among the sources. -/
structure UpdateLowStockResponse where
  success : Bool
  updatedProducts : List Product
  message : String
deriving DecidableEq, Repr

/-- Modelled from the spec: UpdateLowStockProducts (spec section 4.2; its implementation,
    referenced as crm.cron.update_low_stock in crm/settings.py, is missing from the
    sources). It selects every Product with stock below the fixed threshold of 10 units,
    increments each by the fixed amount of 10 units, persists, and returns the full list of
    updated products plus a count-bearing message. -/
def updateLowStockProducts (db : DB) : UpdateLowStockResponse × DB :=
  let low := db.products.filter (fun p => decide (p.stock < 10))
  let updated := low.map (fun p => { p with stock := p.stock + 10 })
  let db2 :=
    { db with products :=
        db.products.map (fun p =>
          if p.stock < 10 then { p with stock := p.stock + 10 } else p) }
  ({ success := true, updatedProducts := updated,
     message := "Successfully updated " ++ toString updated.length ++ " low-stock products" },
   db2)

/-- CRONJOBS from crm/settings.py: the two declarative schedules. -/
def CRONJOBS : List (String × String) :=
  [("*/5 * * * *", "crm.cron.log_crm_heartbeat"),
   ("0 */12 * * *", "crm.cron.update_low_stock")]

/-- C1: every failing CreateOrder call, whether from an empty product list, an unresolved
    customer or product id, or a raising persistence step, returns success=false with the
    corresponding error string and leaves the database exactly as it was: no Order or
    OrderItem row created by the call stays visible. -/
theorem create_order_failure_atomic (db : DB) (input : OrderInput)
    (fault : Nat → Option String) :
    ((createOrder db input fault).1.success = false → (createOrder db input fault).2 = db) ∧
    (input.product_ids = [] →
      (createOrder db input fault).1.success = false ∧
      (createOrder db input fault).1.errors =
        some [get_user_friendly_error "products" "" "no_products"]) ∧
    (input.product_ids ≠ [] → findCustomer db input.customer_id = none →
      (createOrder db input fault).1.success = false ∧
      (createOrder db input fault).1.errors =
        some [get_user_friendly_error "customer" (toString input.customer_id)
          "customer_not_found"]) ∧
    (∀ pid, input.product_ids ≠ [] → (findCustomer db input.customer_id).isSome = true →
      resolveProducts db input.product_ids = Except.error pid →
      (createOrder db input fault).1.success = false ∧
      (createOrder db input fault).1.errors =
        some [get_user_friendly_error "product" (toString pid) "product_not_found"]) ∧
    (∀ m c ps, input.product_ids ≠ [] → findCustomer db input.customer_id = some c →
      resolveProducts db input.product_ids = Except.ok ps →
      runSaves db fault
        { id := maxOrderId db + 1, customerId := c.id,
          totalAmount := ps.foldl (fun acc p => acc + p.price) 0,
          orderDate := input.order_date }
        (mkOrderItems (maxOrderId db + 1) (maxItemId db) ps) ps = Except.error m →
      (createOrder db input fault).1.success = false ∧
      (createOrder db input fault).1.errors = some [m]) := by
  refine ⟨?_, ?_, ?_, ?_, ?_⟩
  · intro hs
    by_cases h0 : input.product_ids.isEmpty
    · simp [createOrder, h0]
    · cases hc : findCustomer db input.customer_id with
      | none => simp [createOrder, h0, hc]
      | some c =>
        cases hr : resolveProducts db input.product_ids with
        | error pid => simp [createOrder, h0, hc, hr]
        | ok ps =>
          cases hrs : runSaves db fault
              { id := maxOrderId db + 1, customerId := c.id,
                totalAmount := ps.foldl (fun acc p => acc + p.price) 0,
                orderDate := input.order_date }
              (mkOrderItems (maxOrderId db + 1) (maxItemId db) ps) ps with
          | error m => simp [createOrder, h0, hc, hr, hrs]
          | ok db2 => simp [createOrder, h0, hc, hr, hrs] at hs
  · intro h0
    simp [createOrder, h0]
  · intro h0 hc
    simp [createOrder, List.isEmpty_iff, h0, hc]
  · intro pid h0 hc hr
    cases hcs : findCustomer db input.customer_id with
    | none => rw [hcs] at hc; simp at hc
    | some c => simp [createOrder, List.isEmpty_iff, h0, hcs, hr]
  · intro m c ps h0 hc hr hrs
    simp [createOrder, List.isEmpty_iff, h0, hc, hr, hrs]

/-- A fault-free run of the item saves appends exactly the given rows. -/
theorem saveItemsAux_ok (fault : Nat → Option String) (items : List OrderItem) :
    ∀ (db db2 : DB) (k : Nat), saveItemsAux fault db items k = Except.ok db2 →
      db2 = { db with orderItems := db.orderItems ++ items } := by
  induction items with
  | nil =>
    intro db db2 k h
    simp [saveItemsAux] at h
    simp [← h]
  | cons it rest ih =>
    intro db db2 k h
    cases hf : fault k with
    | some m => rw [saveItemsAux, hf] at h; simp at h
    | none =>
      rw [saveItemsAux, hf] at h
      have := ih _ _ _ h
      simp [this, List.append_assoc]

/-- A committed persistence phase appends exactly the order row and its item rows and
    touches no other table. -/
theorem runSaves_ok (db db2 : DB) (fault : Nat → Option String) (o : Order)
    (items : List OrderItem) (ps : List Product)
    (h : runSaves db fault o items ps = Except.ok db2) :
    db2.orders = db.orders ++ [o] ∧
    db2.orderItems = db.orderItems ++ items ∧
    db2.customers = db.customers ∧
    db2.products = db.products := by
  rw [runSaves] at h
  cases h0 : fault 0 with
  | some m => rw [h0] at h; simp at h
  | none =>
    rw [h0] at h
    cases hs : saveItemsAux fault { db with orders := db.orders ++ [o] } items 1 with
    | error m => rw [hs] at h; simp at h
    | ok db1 =>
      rw [hs] at h
      cases hl : fault (items.length + 1) with
      | some m => rw [hl] at h; simp at h
      | none =>
        rw [hl] at h
        simp at h
        have h1 := saveItemsAux_ok fault items _ _ _ hs
        subst h1
        simp [← h]

/-- A successful resolution returns, in order, one stored product per requested id. -/
theorem resolveProducts_ok (db : DB) (pids : List Nat) :
    ∀ ps, resolveProducts db pids = Except.ok ps →
      ps.map (fun p => p.id) = pids ∧ ∀ p ∈ ps, p ∈ db.products := by
  induction pids with
  | nil =>
    intro ps h
    simp [resolveProducts] at h
    subst h
    simp
  | cons pid rest ih =>
    intro ps h
    cases hf : findProduct db pid with
    | none => rw [resolveProducts, hf] at h; simp at h
    | some p =>
      rw [resolveProducts, hf] at h
      cases hr : resolveProducts db rest with
      | error e => rw [hr] at h; simp at h
      | ok ps2 =>
        rw [hr] at h
        simp at h
        obtain ⟨h1, h2⟩ := ih ps2 hr
        have hid : p.id = pid := by
          have := List.find?_some hf
          simpa using this
        have hmem : p ∈ db.products := List.mem_of_find?_eq_some hf
        subst h
        refine ⟨by simp [hid, h1], ?_⟩
        intro q hq
        rcases List.mem_cons.mp hq with hq | hq
        · subst hq; exact hmem
        · exact h2 q hq

/-- The built items carry, product by product, the order id, the product id, quantity 1 and
    the snapshot price. -/
theorem mkOrderItems_fields (oid : Nat) (ps : List Product) : ∀ base,
    (mkOrderItems oid base ps).map
        (fun it => (it.orderId, it.productId, it.quantity, it.price)) =
      ps.map (fun p => (oid, p.id, 1, p.price)) := by
  induction ps with
  | nil => intro base; simp [mkOrderItems]
  | cons p rest ih => intro base; simp [mkOrderItems, ih]

/-- C4: a successful CreateOrder stores a total equal to the sum of the resolved product
    prices as read at call time, one OrderItem per listed product with quantity 1 and that
    same price snapshot, and a later edit of any product price leaves the stored OrderItem
    rows untouched. -/
theorem create_order_success_snapshot (db : DB) (input : OrderInput)
    (fault : Nat → Option String)
    (h : (createOrder db input fault).1.success = true) :
    ∃ ps, resolveProducts db input.product_ids = Except.ok ps ∧
      ps.map (fun p => p.id) = input.product_ids ∧
      (∀ p ∈ ps, p ∈ db.products) ∧
      ∃ o, (createOrder db input fault).1.order = some o ∧
        o.totalAmount = ps.foldl (fun acc p => acc + p.price) 0 ∧
        (createOrder db input fault).2.orders = db.orders ++ [o] ∧
        (createOrder db input fault).2.orderItems =
          db.orderItems ++ mkOrderItems o.id (maxItemId db) ps ∧
        (mkOrderItems o.id (maxItemId db) ps).map
            (fun it => (it.orderId, it.productId, it.quantity, it.price)) =
          ps.map (fun p => (o.id, p.id, 1, p.price)) ∧
        (∀ pid np,
          (updateProductPrice (createOrder db input fault).2 pid np).orderItems =
            (createOrder db input fault).2.orderItems) := by
  by_cases h0 : input.product_ids.isEmpty
  · simp [createOrder, h0] at h
  · cases hc : findCustomer db input.customer_id with
    | none => simp [createOrder, h0, hc] at h
    | some c =>
      cases hr : resolveProducts db input.product_ids with
      | error pid => simp [createOrder, h0, hc, hr] at h
      | ok ps =>
        cases hrs : runSaves db fault
            { id := maxOrderId db + 1, customerId := c.id,
              totalAmount := ps.foldl (fun acc p => acc + p.price) 0,
              orderDate := input.order_date }
            (mkOrderItems (maxOrderId db + 1) (maxItemId db) ps) ps with
        | error m => simp [createOrder, h0, hc, hr, hrs] at h
        | ok db2 =>
          obtain ⟨ho1, ho2, _, _⟩ := runSaves_ok _ _ _ _ _ _ hrs
          obtain ⟨hid, hmem⟩ := resolveProducts_ok db input.product_ids ps hr
          refine ⟨ps, rfl, hid, hmem, ?_⟩
          refine ⟨{ id := maxOrderId db + 1, customerId := c.id,
                    totalAmount := ps.foldl (fun acc p => acc + p.price) 0,
                    orderDate := input.order_date }, ?_, rfl, ?_, ?_, ?_, ?_⟩
          · simp [createOrder, h0, hc, hr, hrs]
          · simpa [createOrder, h0, hc, hr, hrs] using ho1
          · simpa [createOrder, h0, hc, hr, hrs] using ho2
          · exact mkOrderItems_fields _ ps _
          · intro pid np; rfl

/-- The demonstration database of the specification: products with stocks 3, 15 and 9. -/
def lowStockDemoDb : DB :=
  { customers := [],
    products :=
      [{ id := 1, name := "A", price := 1, stock := 3 },
       { id := 2, name := "B", price := 1, stock := 15 },
       { id := 3, name := "C", price := 1, stock := 9 }],
    orders := [], orderItems := [], orderProducts := [] }

/-- C2: UpdateLowStockProducts, run by the 12-hour schedule of CRONJOBS, bumps every
    product with stock strictly below 10 by exactly 10, leaves every other product
    unchanged, and returns the full updated list with a count-bearing message; on stocks
    3, 15 and 9 it yields 13, 15 and 19, updating exactly two products. -/
theorem update_low_stock_spec (db : DB) :
    (("0 */12 * * *", "crm.cron.update_low_stock") ∈ CRONJOBS) ∧
    (∀ p ∈ db.products, p.stock < 10 →
      { p with stock := p.stock + 10 } ∈ (updateLowStockProducts db).2.products) ∧
    (∀ p ∈ db.products, 10 ≤ p.stock → p ∈ (updateLowStockProducts db).2.products) ∧
    ((updateLowStockProducts db).1.updatedProducts =
      (db.products.filter (fun p => decide (p.stock < 10))).map
        (fun p => { p with stock := p.stock + 10 })) ∧
    ((updateLowStockProducts db).1.message =
      "Successfully updated " ++
        toString ((db.products.filter (fun p => decide (p.stock < 10))).length) ++
        " low-stock products") ∧
    ((updateLowStockProducts db).2.products.map Product.stock =
      db.products.map (fun p => if p.stock < 10 then p.stock + 10 else p.stock)) ∧
    ((updateLowStockProducts lowStockDemoDb).2.products.map Product.stock = [13, 15, 19]) ∧
    ((updateLowStockProducts lowStockDemoDb).1.updatedProducts.map Product.stock =
      [13, 19]) := by
  refine ⟨by decide, ?_, ?_, ?_, ?_, ?_, by decide, by decide⟩
  · intro p hp hlow
    simp [updateLowStockProducts]
    exact ⟨p, hp, by simp [hlow]⟩
  · intro p hp hge
    simp [updateLowStockProducts]
    refine ⟨p, hp, ?_⟩
    rw [if_neg (by omega)]
  · simp [updateLowStockProducts]
  · simp [updateLowStockProducts]
  · simp [updateLowStockProducts, List.map_map]
    intro a _
    by_cases h : a.stock < 10 <;> simp [h]

/-- The GraphQL endpoint constant of crm/cron_jobs/send_order_reminders.py. -/
def GRAPHQL_ENDPOINT : String := "http://localhost:8000/graphql"

/-- The timeout argument, in seconds, passed to requests.post by the reminder job. -/
def requestTimeoutSeconds : Nat := 30

/-- One order of the decoded GraphQL response; absent fields print as N/A. -/
structure GqlOrderInfo where
  id : Option String
  customerEmail : Option String
  orderDate : Option String
deriving DecidableEq, Repr

/-- The decoded body of a 200 response: its JSON dump, the optional top-level errors field
    rendered as text, and the two order-list shapes the script probes. -/
structure GqlBody where
  dump : String
  errorsField : Option String
  pendingOrders : Option (List GqlOrderInfo)
  ordersField : Option (List GqlOrderInfo)
deriving DecidableEq, Repr

/-- The exception classes the script distinguishes: requests ConnectionError, requests
    Timeout, and any other exception with its text. -/
inductive PyExn where
  | connectionError : PyExn
  | timeout : PyExn
  | other : String → PyExn
deriving DecidableEq, Repr

/-- Every possible outcome of the network request: an HTTP response with a status code,
    raw text and decoded body, or a raised exception. -/
inductive ReqOutcome where
  | response : Nat → String → GqlBody → ReqOutcome
  | raised : PyExn → ReqOutcome
deriving DecidableEq, Repr

/-- requests.post as seen by the script: either a response or a raised exception. -/
def doRequest : ReqOutcome → Except PyExn (Nat × String × GqlBody)
  | ReqOutcome.response s t b => Except.ok (s, t, b)
  | ReqOutcome.raised e => Except.error e

/-- One log line per order: id, customer email and order date, with N/A defaults. -/
def orderLogLine (ts : String) (o : GqlOrderInfo) : String :=
  "[" ++ ts ++ "] Order ID: " ++ o.id.getD "N/A" ++ ", Customer Email: " ++
    o.customerEmail.getD "N/A" ++ ", Order Date: " ++ o.orderDate.getD "N/A"

/-- The try-block of send_order_reminders: perform the request; on a 200 response log the
    dump and either a GraphQL-errors line or the processing and per-order lines, on any
    other status an HTTP error line; re-raise any exception of the request. Returns the
    appended log lines and the console prints. -/
def reminderBody (ts : String) (r : ReqOutcome) :
    Except PyExn (List String × List String) :=
  match doRequest r with
  | Except.error e => Except.error e
  | Except.ok (status, text, body) =>
    if status = 200 then
      let l1 := "[" ++ ts ++ "] GraphQL Response: " ++ body.dump
      match body.errorsField with
      | some errs =>
        Except.ok ([l1, "[" ++ ts ++ "] GraphQL Errors: " ++ errs],
          ["GraphQL query errors occurred. Check log for details."])
      | none =>
        let first := body.pendingOrders.getD []
        let orders := if first.isEmpty then body.ordersField.getD [] else first
        Except.ok
          ([l1, "[" ++ ts ++ "] Processing " ++ toString orders.length ++ " pending orders"]
              ++ orders.map (orderLogLine ts),
            ["Order reminders processed!"])
    else
      Except.ok (["[" ++ ts ++ "] HTTP Error: " ++ toString status ++ " - " ++ text],
        ["HTTP Error: " ++ toString status])

/-- The fixed log text of the connection-error handler. -/
def connErrorText : String :=
  "Error: Could not connect to GraphQL endpoint at " ++ GRAPHQL_ENDPOINT

/-- The fixed log text of the timeout handler. -/
def timeoutErrorText : String := "Error: Request timeout"

/-- The tag prefixed to the text of any other exception. -/
def unexpectedErrorTag : String := "Unexpected error: "

/-- The three except-clauses of send_order_reminders, one per exception class. -/
def handleReminderExn (ts : String) : PyExn → List String × List String
  | PyExn.connectionError =>
    (["[" ++ ts ++ "] " ++ connErrorText],
      ["Connection error: Could not reach GraphQL endpoint"])
  | PyExn.timeout => (["[" ++ ts ++ "] " ++ timeoutErrorText], ["Request timeout"])
  | PyExn.other m =>
    (["[" ++ ts ++ "] " ++ unexpectedErrorTag ++ m], ["Unexpected error: " ++ m])

/-- send_order_reminders from crm/cron_jobs/send_order_reminders.py: the try-block wrapped
    by the except-clauses; every exception of the model is caught, so the job always
    returns log lines and console prints instead of propagating. -/
def send_order_reminders (ts : String) (r : ReqOutcome) : List String × List String :=
  match reminderBody ts r with
  | Except.ok out => out
  | Except.error e => handleReminderExn ts e

/-- C8: the order-reminder job carries a 30-second request timeout and never propagates an
    exception: every exception the body raises is handled, each of the three classes
    appends a log line, and the three fixed message prefixes are pairwise distinct. -/
theorem order_reminders_catch_all (ts : String) (r : ReqOutcome) :
    requestTimeoutSeconds = 30 ∧
    (∀ e, reminderBody ts r = Except.error e →
      send_order_reminders ts r = handleReminderExn ts e) ∧
    (∀ e, (handleReminderExn ts e).1 ≠ []) ∧
    (send_order_reminders ts (ReqOutcome.raised PyExn.connectionError)).1 =
      ["[" ++ ts ++ "] " ++ connErrorText] ∧
    (send_order_reminders ts (ReqOutcome.raised PyExn.timeout)).1 =
      ["[" ++ ts ++ "] " ++ timeoutErrorText] ∧
    (∀ m, (send_order_reminders ts (ReqOutcome.raised (PyExn.other m))).1 =
      ["[" ++ ts ++ "] " ++ unexpectedErrorTag ++ m]) ∧
    connErrorText ≠ timeoutErrorText ∧
    startsWithL connErrorText unexpectedErrorTag = false ∧
    startsWithL timeoutErrorText unexpectedErrorTag = false ∧
    startsWithL connErrorText timeoutErrorText = false ∧
    startsWithL timeoutErrorText connErrorText = false := by
  refine ⟨rfl, ?_, ?_, rfl, rfl, fun m => rfl, by decide, by decide, by decide, by decide,
    by decide⟩
  · intro e he
    simp [send_order_reminders, he]
  · intro e
    cases e <;> simp [handleReminderExn]

/-- A database with one customer and two products, to instantiate the order theorems. -/
def c4db : DB :=
  { customers := [{ id := 1, name := "A", email := "a@x.com", phone := none }],
    products :=
      [{ id := 1, name := "P", price := 5, stock := 3 },
       { id := 2, name := "Q", price := 7, stock := 20 }],
    orders := [], orderItems := [], orderProducts := [] }

/-- An order input listing both stored products. -/
def c4input : OrderInput := { customer_id := 1, product_ids := [1, 2], order_date := none }

/-- The fault oracle of a run in which no persistence operation raises. -/
def noFaults : Nat → Option String := fun _ => none

/-- Witness for the CreateOrder failure theorem at a concrete empty-list call. -/
theorem create_order_failure_atomic_witness :
    (createOrder c4db { customer_id := 1, product_ids := [], order_date := none }
        noFaults).1.success = false ∧
    (createOrder c4db { customer_id := 1, product_ids := [], order_date := none }
        noFaults).1.errors = some [get_user_friendly_error "products" "" "no_products"] :=
  (create_order_failure_atomic c4db
      { customer_id := 1, product_ids := [], order_date := none } noFaults).2.1 rfl

/-- Witness for the CreateOrder success theorem at a concrete fault-free call. -/
theorem create_order_success_snapshot_witness :
    (createOrder c4db c4input noFaults).1.success = true ∧
    (∃ ps, resolveProducts c4db c4input.product_ids = Except.ok ps ∧
      ps.map (fun p => p.id) = c4input.product_ids ∧
      (∀ p ∈ ps, p ∈ c4db.products) ∧
      ∃ o, (createOrder c4db c4input noFaults).1.order = some o ∧
        o.totalAmount = ps.foldl (fun acc p => acc + p.price) 0 ∧
        (createOrder c4db c4input noFaults).2.orders = c4db.orders ++ [o] ∧
        (createOrder c4db c4input noFaults).2.orderItems =
          c4db.orderItems ++ mkOrderItems o.id (maxItemId c4db) ps ∧
        (mkOrderItems o.id (maxItemId c4db) ps).map
            (fun it => (it.orderId, it.productId, it.quantity, it.price)) =
          ps.map (fun p => (o.id, p.id, 1, p.price)) ∧
        (∀ pid np,
          (updateProductPrice (createOrder c4db c4input noFaults).2 pid np).orderItems =
            (createOrder c4db c4input noFaults).2.orderItems)) :=
  ⟨by decide, create_order_success_snapshot c4db c4input noFaults (by decide)⟩

/-- Witness for the low-stock theorem: the stock-3 demo product reappears with stock 13. -/
theorem update_low_stock_spec_witness :
    { id := 1, name := "A", price := 1, stock := (13 : Int) } ∈
      (updateLowStockProducts lowStockDemoDb).2.products :=
  (update_low_stock_spec lowStockDemoDb).2.1
    { id := 1, name := "A", price := 1, stock := 3 } (by decide) (by decide)

/-- Witness for the reminder theorem: a concrete connection error is caught and handled. -/
theorem order_reminders_catch_all_witness :
    send_order_reminders "2026-01-01 00:00:00" (ReqOutcome.raised PyExn.connectionError) =
      handleReminderExn "2026-01-01 00:00:00" PyExn.connectionError :=
  (order_reminders_catch_all "2026-01-01 00:00:00"
      (ReqOutcome.raised PyExn.connectionError)).2.1 PyExn.connectionError rfl
